import Mathlib

/-! Verification development for the YouTube summarizer repository.

Text is modelled as `List Char` (byte-for-byte over characters), Python
strings in prompts as Lean `String`.  Fallible Python code returning
`None` or raising is modelled with `Option` / `Except`.  External network
and browser calls are abstracted into outcome parameters; everything the
code the repository itself does with those outcomes is modelled faithfully,
statement by statement.
-/

/- ===================== Chunked splitting (spec section 3, ChunkSet) ===================== -/

/-- Modelled from the spec: the text splitter used by
`summarize_with_langchain_and_openai` (app.py line 277) is the external
`langchain` `RecursiveCharacterTextSplitter`, whose implementation is not
part of this repository.  The spec describes a ChunkSet as an "ordered
sequence of overlapping text windows derived from a transcript: fixed
chunkSize and chunkOverlap (overlap < size)".  We model it as fixed-size
sliding windows: each window holds `size` elements and consecutive
windows overlap in `ov` elements (stride `size - ov`); the final window
holds whatever remains.  The `fuel` argument only forces termination;
`chunkSet` supplies enough fuel for the recursion to run to completion. -/
def chunksFuel (size ov : Nat) : Nat → List Char → List (List Char)
  | 0, _ => []
  | f + 1, t =>
    if t.length ≤ size then [t]
    else t.take size :: chunksFuel size ov f (t.drop (size - ov))

/-- Modelled from the spec: the ChunkSet of a text, see `chunksFuel`. -/
def chunkSet (size ov : Nat) (t : List Char) : List (List Char) :=
  chunksFuel size ov (t.length + 1) t

/-- Concatenation of the chunks "with each overlapping region removed":
the first chunk in full, every later chunk with its leading overlap of
`ov` elements dropped. -/
def reassemble (ov : Nat) : List (List Char) → List Char
  | [] => []
  | c :: cs => c ++ (cs.map (List.drop ov)).flatten

/- ===================== Prompt template registry (app.py, create_summary_prompt) ===================== -/

/-- Section labels of a summary prompt template (app.py lines 223-239). -/
structure Labels where
  title : String
  overview : String
  key_points : String
  takeaways : String
  context : String
deriving DecidableEq, Repr

/-- English section labels (app.py lines 224-230). -/
def en_labels : Labels :=
  { title := "TITLE", overview := "OVERVIEW", key_points := "KEY POINTS",
    takeaways := "MAIN TAKEAWAYS", context := "CONTEXT & IMPLICATIONS" }

/-- German section labels (app.py lines 231-237). -/
def de_labels : Labels :=
  { title := "TITEL", overview := "ÜBERBLICK", key_points := "KERNPUNKTE",
    takeaways := "HAUPTERKENNTNISSE", context := "KONTEXT & AUSWIRKUNGEN" }

/-- The `language_prompts` dictionary (app.py lines 223-239): entries for
exactly the codes "en" and "de". -/
def language_prompts (lang : String) : Option Labels :=
  if lang = "en" then some en_labels
  else if lang = "de" then some de_labels
  else none

/-- The lookup `language_prompts.get(target_language, default English entry)`
(app.py line 242): fall back to the English labels when the requested
language has no entry. -/
def prompts_for (lang : String) : Labels :=
  (language_prompts lang).getD en_labels

/-- The system prompt f-string (app.py lines 244-246), with the
`{target_language}` placeholder spliced in. -/
def system_prompt (lang : String) : String :=
  "You are an expert content analyst and summarizer. Create a comprehensive \n    summary in "
    ++ lang
    ++ ". Ensure all content is fully translated and culturally adapted \n    to the target language."

/-- The user prompt f-string (app.py lines 248-271), with the labels,
`{target_language}` and `{text}` placeholders spliced in. -/
def user_prompt (p : Labels) (lang text : String) : String :=
  "Please provide a detailed summary of the following content in "
    ++ lang
    ++ ". \n    Structure your response as follows:\n\n    🎯 "
    ++ p.title
    ++ ": Create a descriptive title\n\n    📝 "
    ++ p.overview
    ++ " (2-3 sentences):\n    - Provide a brief context and main purpose\n\n    🔑 "
    ++ p.key_points
    ++ ":\n    - Extract and explain the main arguments\n    - Include specific examples\n    - Highlight unique perspectives\n\n    💡 "
    ++ p.takeaways
    ++ ":\n    - List 3-5 practical insights\n    - Explain their significance\n\n    🔄 "
    ++ p.context
    ++ ":\n    - Broader context discussion\n    - Future implications\n\n    Text to summarize: "
    ++ text
    ++ "\n\n    Ensure the summary is comprehensive enough for someone who hasn\u0027t seen the original content."

/-- Model of `create_summary_prompt(text, target_language)` (app.py lines 221-273):
returns the pair (system_prompt, user_prompt). -/
def create_summary_prompt (text lang : String) : String × String :=
  (system_prompt lang, user_prompt (prompts_for lang) lang text)

/-- A single text string occurring inside another, used to state that a
prompt still asks for the requested language. -/
def containsStr (needle hay : String) : Prop :=
  ∃ a b : String, hay = a ++ needle ++ b

/- ===================== Chunked summarizer (app.py, summarize_with_langchain_and_openai) ===================== -/

/-- One chat-completion generation call: the (system, user) message pair
sent to the model. -/
structure GenCall where
  system : String
  user : String
deriving DecidableEq, Repr

/-- The splitter exactly as configured in
`summarize_with_langchain_and_openai` (app.py lines 277-282):
chunk_size=2000, chunk_overlap=200.  The splitting algorithm itself is
the spec-modelled `chunkSet`, see `chunksFuel`. -/
def split_text (t : List Char) : List (List Char) :=
  chunkSet 2000 200 t

/-- Model of `text_to_summarize = " ".join(texts[:4])` (app.py line 283): the
space-join of at most the first 4 chunks of the split. -/
def text_to_summarize (t : List Char) : List Char :=
  List.intercalate [' '] ((split_text t).take 4)

/-- The full list of generation calls issued by
`summarize_with_langchain_and_openai` (app.py lines 275-299) for a given
transcript and target language: the function builds one prompt pair from
`text_to_summarize` and issues exactly one chat-completion call with it
(lines 289-297); no other generation call appears in the function. -/
def summarize_gen_calls (t : List Char) (lang : String) : List GenCall :=
  [{ system := (create_summary_prompt (String.mk (text_to_summarize t)) lang).1,
     user := (create_summary_prompt (String.mk (text_to_summarize t)) lang).2 }]

/- ===================== Video id extraction (app.py, extract_video_id) ===================== -/

/-- Whitespace as stripped by Python `str.strip()` (restricted to the
ASCII whitespace actually relevant to URL input). -/
def isWS (c : Char) : Bool :=
  c == ' ' || c == '\t' || c == '\n' || c == '\r'

/-- Python `youtube_url.strip()` (app.py line 62): remove leading and
trailing whitespace. -/
def pyStrip (l : List Char) : List Char :=
  ((l.dropWhile isWS).reverse.dropWhile isWS).reverse

/-- A character of the regex class `[0-9A-Za-z_-]` (app.py lines 55-59). -/
def idChar (c : Char) : Bool :=
  c.isAlphanum || c == '_' || c == '-'

/-- The capture group `([0-9A-Za-z_-]{11})`: exactly the next 11
characters, all in the id class; `none` otherwise.  (The trailing `.*`
of the first pattern can always match and imposes no constraint.) -/
def grab11 (s : List Char) : Option (List Char) :=
  if (s.take 11).all idChar && ((s.take 11).length == 11) then some (s.take 11) else none

/-- The first pattern `(?:v=|\/)([0-9A-Za-z_-]{11}).*` (app.py line 55)
tested at one position: either `v=` or `/` here, followed by the capture
group. -/
def pat1At (s : List Char) : Option (List Char) :=
  if s.take 2 = ['v', '='] then grab11 (s.drop 2)
  else if s.take 1 = ['/'] then grab11 (s.drop 1)
  else none

/-- A pattern of the form `(?:LIT)([0-9A-Za-z_-]{11})` (app.py lines
56-58) tested at one position: the literal `pre` here, followed by the
capture group. -/
def patPreAt (pre : List Char) (s : List Char) : Option (List Char) :=
  if s.take pre.length = pre then grab11 (s.drop pre.length) else none

/-- Python `re.search`: try the position pattern at every position, left
to right; first match wins. -/
def searchPat (patAt : List Char → Option (List Char)) : List Char → Option (List Char)
  | [] => none
  | c :: rest =>
    match patAt (c :: rest) with
    | some r => some r
    | none => searchPat patAt rest

/-- Scan only the positions that start inside `pre` (every position of
`pre ++ suf` except those inside `suf`); used to reason about
`searchPat` on an appended list. -/
def scanPre (patAt : List Char → Option (List Char)) : List Char → List Char → Option (List Char)
  | [], _ => none
  | c :: rest, suf =>
    match patAt (c :: rest ++ suf) with
    | some r => some r
    | none => scanPre patAt rest suf

/-- The anchored pattern `^([0-9A-Za-z_-]{11})$` (app.py line 59): the
whole string is a bare 11-character id. -/
def pat5 (u : List Char) : Option (List Char) :=
  if u.all idChar && (u.length == 11) then some u else none

/-- Model of `extract_video_id` (app.py lines 52-69): strip surrounding
whitespace, then try the five regex patterns in order, returning the
first capture; `none` models the `ValueError` raised when no pattern
matches. -/
def extract_video_id (url : List Char) : Option (List Char) :=
  match searchPat pat1At (pyStrip url) with
  | some r => some r
  | none =>
  match searchPat (patPreAt ("embed/".toList)) (pyStrip url) with
  | some r => some r
  | none =>
  match searchPat (patPreAt ("youtu.be/".toList)) (pyStrip url) with
  | some r => some r
  | none =>
  match searchPat (patPreAt ("shorts/".toList)) (pyStrip url) with
  | some r => some r
  | none => pat5 (pyStrip url)

/- ===================== Transcript acquisition (app.py, get_transcript) ===================== -/

/-- Modelled from the spec: one entry of the external transcript listing
(the `youtube_transcript_api` library is not part of this repository);
spec section 6 gives the capability interface `TranscriptListingProvider`:
a sequence of available transcripts, "each with languageCode,
isManuallyCreated, fetch() -> ordered text segments". -/
structure TranscriptInfo where
  languageCode : String
  isManuallyCreated : Bool
  segments : List String
deriving DecidableEq, Repr

/-- Model of `transcript_list.find_manually_created_transcript()` (app.py line 83):
the first manually created transcript of the listing, if any. -/
def find_manually_created (ts : List TranscriptInfo) : Option TranscriptInfo :=
  ts.find? (fun t => t.isManuallyCreated)

/-- The selection logic of the NativeApi strategy (app.py lines 82-87):
try the first manually created transcript; if that fails, the bare
`except:` falls back to `next(iter(transcript_list))`, the first
available transcript; an empty listing makes that raise as well, which
the model expresses as `none`. -/
def choose_transcript (ts : List TranscriptInfo) : Option TranscriptInfo :=
  match find_manually_created ts with
  | some t => some t
  | none => ts.head?

/-- The NativeApi strategy result (app.py lines 81-92):
the segment texts joined by a single space (line 89) paired with the
language code of the chosen transcript. -/
def native_api_result (ts : List TranscriptInfo) : Option (String × String) :=
  (choose_transcript ts).map (fun t => (String.intercalate " " t.segments, t.languageCode))

/-- Model of `get_transcript` (app.py lines 71-154) with the two external strategy
executions abstracted into their outcomes: `native` is the outcome of the
NativeApi attempt (lines 77-92), `audio` the outcome of the Whisper
audio-transcription fallback (lines 98-150, transcript text on success).
The code returns the native result when it succeeds; otherwise it runs
the audio fallback, returning the pair (transcript, "en") on success; on failure
of both it returns `(None, None)`, modelled as `none`. -/
def get_transcript (native : Except String (String × String))
    (audio : Except String String) : Option (String × String) :=
  match native with
  | .ok r => some r
  | .error _ =>
    match audio with
    | .ok t => some (t, "en")
    | .error _ => none

/- ===================== Cookie jar persistence (update_cookies.py, get_youtube_cookies) ===================== -/

/-- The two files that `get_youtube_cookies` touches: the cookie jar
`cookies.txt` and its sibling `cookies.txt.backup`; `none` means the
file does not exist, `some s` that it exists with content `s`. -/
structure JarFiles where
  cookie : Option String
  backup : Option String
deriving DecidableEq, Repr

/-- The fixed Netscape header block written first (update_cookies.py
lines 137-139). -/
def cookie_header : String :=
  "# Netscape HTTP Cookie File\n# https://curl.haxx.se/rfc/cookie_spec.html\n# This is a generated file!  Do not edit.\n\n"

/-- The sequence of file-system effects of the persistence code
(update_cookies.py lines 130-151), in program order:
1. `os.replace(cookies_path, backup_path)` when the jar exists (lines 133-134);
2. opening cookies_path for writing truncates / creates the jar (line 136);
3. the header block is written (lines 137-139);
4. one write per cookie row (lines 141-151).
There is no temporary file: the new jar is written directly to
`cookies_path`. -/
def cookie_write_ops (rows : List String) : List (JarFiles → JarFiles) :=
  [fun s => if s.cookie.isSome then { cookie := none, backup := s.cookie } else s,
   fun s => { s with cookie := some "" },
   fun s => { s with cookie := some ((s.cookie.getD "") ++ cookie_header) }]
  ++ rows.map (fun r => fun s => { s with cookie := some ((s.cookie.getD "") ++ r) })

/-- Run a list of file-system effects in order. -/
def runOps (ops : List (JarFiles → JarFiles)) (s : JarFiles) : JarFiles :=
  ops.foldl (fun st op => op st) s

/-- The file-system state after a crash that interrupts
`get_youtube_cookies` once the first `k` effects of the persistence code
have happened. -/
def crash_state (rows : List String) (k : Nat) (s : JarFiles) : JarFiles :=
  runOps ((cookie_write_ops rows).take k) s

/-- The error handler (update_cookies.py lines 166-168):
`os.replace(backup_path, cookies_path)` when the backup exists, run
before the error is surfaced as the `False` return value. -/
def restore_backup (s : JarFiles) : JarFiles :=
  if s.backup.isSome then { cookie := s.backup, backup := none } else s

/- ===================== Audio-transcription strategy cleanup (app.py lines 98-150) ===================== -/

/-- Outcome of the pytube audio download (app.py lines 101-113): it
either returns normally having produced the temp file, or raises; a
download that raises mid-transfer can leave a partial temp file behind
(`failFileLeft`) or leave nothing (`failNoFile`, e.g. no audio stream). -/
inductive DlOutcome where
  | ok
  | failFileLeft
  | failNoFile
deriving DecidableEq, Repr

/-- Outcome of the ffmpeg conversion via `os.system` (app.py line 117),
which never raises: the code only checks whether the output file exists
afterwards (line 123). -/
inductive ConvOutcome where
  | ok
  | fail
deriving DecidableEq, Repr

/-- Outcome of the Whisper transcription call (app.py lines 128-133). -/
inductive TrOutcome where
  | ok (text : String)
  | fail
deriving DecidableEq, Repr

/-- Which temporary audio artifacts still exist when the strategy
returns: the raw download (`..._temp.mp4`) and the transcoded output
(`....mp3`). -/
structure TempFiles where
  temp : Bool
  output : Bool
deriving DecidableEq, Repr

/-- The audio-transcription fallback of `get_transcript` (app.py lines
98-150), tracing every exit path and the temp files it leaves behind:
- download raises (lines 148-150): return `(None, None)`, no cleanup code
  runs on this path, so a partial temp file survives;
- download ok: the temp file is removed after conversion (lines 119-121),
  unconditionally;
- conversion produced no output (lines 144-146): return `(None, None)`;
- transcription error (lines 137-139) or success (line 135): the output
  file is removed by the `finally` block (lines 140-143). -/
def audio_strategy (d : DlOutcome) (c : ConvOutcome) (tr : TrOutcome) :
    Option (String × String) × TempFiles :=
  match d with
  | .failNoFile => (none, { temp := false, output := false })
  | .failFileLeft => (none, { temp := true, output := false })
  | .ok =>
    match c with
    | .fail => (none, { temp := false, output := false })
    | .ok =>
      match tr with
      | .ok t => (some (t, "en"), { temp := false, output := false })
      | .fail => (none, { temp := false, output := false })

/- ===================== Helper lemmas: chunking ===================== -/

theorem chunksFuel_succ (size ov f : Nat) (t : List Char) :
    chunksFuel size ov (f + 1) t =
      if t.length ≤ size then [t]
      else t.take size :: chunksFuel size ov f (t.drop (size - ov)) := rfl

theorem chunksFuel_flatten_drop (size ov : Nat) (h : ov < size) :
    ∀ f t, t.length < f →
      ((chunksFuel size ov f t).map (List.drop ov)).flatten = t.drop ov := by
  intro f
  induction f with
  | zero => intro t ht; omega
  | succ f ih =>
    intro t ht
    by_cases hle : t.length ≤ size
    · simp [chunksFuel_succ, hle]
    · rw [chunksFuel_succ, if_neg hle, List.map_cons, List.flatten_cons,
        ih (t.drop (size - ov)) (by simp [List.length_drop]; omega),
        List.drop_drop]
      have hs : size - ov + ov = size := by omega
      rw [hs]
      conv_rhs => rw [← List.take_append_drop size t]
      rw [List.drop_append_of_le_length (by simp [List.length_take]; omega)]

theorem chunksFuel_reassemble (size ov : Nat) (h : ov < size) :
    ∀ f t, t.length < f → reassemble ov (chunksFuel size ov f t) = t := by
  intro f
  induction f with
  | zero => intro t ht; omega
  | succ f ih =>
    intro t ht
    by_cases hle : t.length ≤ size
    · simp [chunksFuel_succ, hle, reassemble]
    · rw [chunksFuel_succ, if_neg hle]
      show t.take size ++ ((chunksFuel size ov f (t.drop (size - ov))).map (List.drop ov)).flatten = t
      rw [chunksFuel_flatten_drop size ov h f _ (by simp [List.length_drop]; omega),
        List.drop_drop]
      have hs : size - ov + ov = size := by omega
      rw [hs, List.take_append_drop]

theorem chunkSet_pair (size ov : Nat) (t : List Char) (h1 : size < t.length)
    (h2 : t.length - (size - ov) ≤ size) :
    chunkSet size ov t = [t.take size, t.drop (size - ov)] := by
  unfold chunkSet
  rw [chunksFuel_succ, if_neg (by omega)]
  obtain ⟨m, hm⟩ : ∃ m, t.length = m + 1 := ⟨t.length - 1, by omega⟩
  rw [hm, chunksFuel_succ, if_pos (by simp [List.length_drop]; omega)]

/- ===================== Claim C3 ===================== -/

/-- Claim C3 (confirmed, splitter spec-modelled): for any text and any
(chunkSize, overlap) with overlap < chunkSize, concatenating the entries
of the produced ChunkSet with each overlapping region removed reproduces
the original text exactly, element for element. -/
theorem chunkSet_reassemble_exact (size ov : Nat) (h : ov < size) (t : List Char) :
    reassemble ov (chunkSet size ov t) = t :=
  chunksFuel_reassemble size ov h (t.length + 1) t (Nat.lt_succ_self _)

/-- Witness for `chunkSet_reassemble_exact` at chunkSize 3, overlap 1,
text "abcde". -/
theorem chunkSet_reassemble_exact_witness :
    1 < 3 ∧ reassemble 1 (chunkSet 3 1 ("abcde".toList)) = "abcde".toList :=
  ⟨by decide, chunkSet_reassemble_exact 3 1 (by decide) ("abcde".toList)⟩

/- ===================== Claim C1 ===================== -/

/-- Claim C1 (corrected): `summarize_with_langchain_and_openai` issues
exactly one generation call for every transcript, whether the split
produces one chunk or many; there are no per-chunk map calls and no
reduce call. -/
theorem summarize_single_call (t : List Char) (lang : String) :
    (summarize_gen_calls t lang).length = 1 := rfl

/-- Counterexample to claim C1 as stated: a transcript of 2200
characters splits into 2 chunks, yet the pipeline still issues 1
generation call, not 2 map calls plus 1 reduce call. -/
theorem summarize_single_call_counterexample :
    (split_text (List.replicate 2200 'a')).length = 2 ∧
    (summarize_gen_calls (List.replicate 2200 'a') "en").length = 1 ∧
    ¬((summarize_gen_calls (List.replicate 2200 'a') "en").length =
        (split_text (List.replicate 2200 'a')).length + 1) := by
  have h : split_text (List.replicate 2200 'a') =
      [(List.replicate 2200 'a').take 2000, (List.replicate 2200 'a').drop 1800] :=
    chunkSet_pair 2000 200 _ (by rw [List.length_replicate]; omega)
      (by rw [List.length_replicate]; omega)
  refine ⟨by rw [h]; rfl, rfl, ?_⟩
  rw [h]
  decide

/- ===================== Claim C2 ===================== -/

/-- Claim C2 (confirmed): the text submitted to the single generation
call is the space-join of at most the first 4 chunks of the split; the
generation calls depend only on those first 4 chunks, so transcript
content beyond the fourth chunk never reaches any generation call. -/
theorem submitted_text_first_four :
    (∀ t : List Char, text_to_summarize t = List.intercalate [' '] ((split_text t).take 4)) ∧
    (∀ t₁ t₂ : List Char, ∀ lang : String,
      (split_text t₁).take 4 = (split_text t₂).take 4 →
      summarize_gen_calls t₁ lang = summarize_gen_calls t₂ lang) := by
  refine ⟨fun t => rfl, fun t₁ t₂ lang h => ?_⟩
  unfold summarize_gen_calls text_to_summarize
  rw [h]

/-- Witness for `submitted_text_first_four` at the transcript "a". -/
theorem submitted_text_first_four_witness :
    (split_text ("a".toList)).take 4 = (split_text ("a".toList)).take 4 ∧
    summarize_gen_calls ("a".toList) "en" = summarize_gen_calls ("a".toList) "en" :=
  ⟨rfl, submitted_text_first_four.2 ("a".toList) ("a".toList) "en" rfl⟩

/- ===================== Claim C5 ===================== -/

/-- Claim C5 (corrected): when every strategy has failed, `get_transcript`
returns the bare `(None, None)` — a value that is independent of the
per-strategy errors and therefore carries no attempt history — and it
returns that failure value only when the NativeApi attempt and the audio
fallback have both been attempted and failed. -/
theorem get_transcript_failure_no_history :
    (∀ e₁ e₂ : String, get_transcript (.error e₁) (.error e₂) = none) ∧
    (∀ (n : Except String (String × String)) (a : Except String String),
      get_transcript n a = none → (∃ e, n = .error e) ∧ (∃ e, a = .error e)) := by
  constructor
  · intro e₁ e₂; rfl
  · intro n a h
    cases n with
    | ok r => simp [get_transcript] at h
    | error e =>
      cases a with
      | ok t => simp [get_transcript] at h
      | error e₂ => exact ⟨⟨e, rfl⟩, ⟨e₂, rfl⟩⟩

/-- Witness for `get_transcript_failure_no_history` at concrete outcomes. -/
theorem get_transcript_failure_no_history_witness :
    get_transcript (.error "native failed") (.error "audio failed") = none ∧
    ((∃ e, (Except.error "native failed" : Except String (String × String)) = .error e) ∧
     (∃ e, (Except.error "audio failed" : Except String String) = .error e)) :=
  ⟨rfl, get_transcript_failure_no_history.2 (.error "native failed") (.error "audio failed") rfl⟩

/-- Counterexample to claim C5 as stated: two runs with entirely
different per-strategy attempt histories surface the identical failure
value `(None, None)`, so the surfaced failure carries no per-strategy
attempt history (not even the last error). -/
theorem get_transcript_failure_no_history_counterexample :
    get_transcript (.error "no captions for this video") (.error "no audio stream found") = none ∧
    get_transcript (.error "authentication expired") (.error "ffmpeg conversion failed") = none ∧
    "no captions for this video" ≠ "authentication expired" :=
  ⟨rfl, rfl, by decide⟩

/- ===================== Claim C7 ===================== -/

/-- Claim C7 (confirmed, provider spec-modelled): the NativeApi strategy
selects the first manually created transcript when one exists, otherwise
the first available transcript, and returns its segments joined in
original order by exactly one space — no re-ordering, no de-duplication. -/
theorem native_api_selection (ts : List TranscriptInfo) :
    (∀ t, find_manually_created ts = some t →
      native_api_result ts = some (String.intercalate " " t.segments, t.languageCode)) ∧
    (find_manually_created ts = none → ∀ t rest, ts = t :: rest →
      native_api_result ts = some (String.intercalate " " t.segments, t.languageCode)) := by
  constructor
  · intro t h
    unfold native_api_result choose_transcript
    rw [h]
    rfl
  · intro h t rest hts
    unfold native_api_result choose_transcript
    rw [h, hts]
    rfl

/-- Witness for `native_api_selection`: the manual transcript in second
position is chosen over the first entry, and its repeated segments stay
repeated, joined by single spaces. -/
theorem native_api_selection_witness :
    native_api_result
      [⟨"en", false, ["first"]⟩, (⟨"de", true, ["x", "x", "y"]⟩ : TranscriptInfo)] =
      some ("x x y", "de") :=
  (native_api_selection _).1 ⟨"de", true, ["x", "x", "y"]⟩ (by rfl)

/- ===================== Claim C9 ===================== -/

/-- Claim C9 (corrected): when the download step completes (or fails
leaving nothing behind), every exit path of the audio-transcription
strategy deletes both temporary artifacts; but on the download-error
exit path no cleanup code runs, so a partial downloaded file survives
the return. -/
theorem audio_strategy_cleanup :
    (∀ c tr, (audio_strategy .ok c tr).2 = { temp := false, output := false }) ∧
    (∀ c tr, (audio_strategy .failNoFile c tr).2 = { temp := false, output := false }) ∧
    (∀ c tr, (audio_strategy .failFileLeft c tr).2 = { temp := true, output := false }) := by
  refine ⟨fun c tr => ?_, fun c tr => rfl, fun c tr => rfl⟩
  cases c <;> cases tr <;> rfl

/-- Counterexample to claim C9 as stated: a download failure that leaves
a partial temp file behind is an exit path on which the raw audio
artifact is not deleted. -/
theorem audio_strategy_cleanup_counterexample :
    (audio_strategy .failFileLeft .ok (.ok "text")).1 = none ∧
    (audio_strategy .failFileLeft .ok (.ok "text")).2.temp = true :=
  ⟨rfl, rfl⟩

/- ===================== Claim C10 ===================== -/

/-- Claim C10 (corrected): every result produced by the
audio-transcription strategy has languageCode "en" (that half of the
claim holds), but successfully returned transcripts are not guaranteed
non-empty: the code performs no non-emptiness check, and an empty
segment list joins to the empty string. -/
theorem audio_language_en :
    (∀ e t : String, get_transcript (.error e) (.ok t) = some (t, "en")) ∧
    native_api_result [(⟨"de", false, []⟩ : TranscriptInfo)] = some ("", "de") :=
  ⟨fun _ _ => rfl, rfl⟩

/-- Counterexample to claim C10 as stated: a Whisper transcription that
returns the empty string is surfaced as a successful result with empty
transcript text. -/
theorem audio_language_en_counterexample :
    get_transcript (.error "no captions") (.ok "") = some ("", "en") ∧
    ("" : String).length = 0 :=
  ⟨rfl, rfl⟩

/- ===================== Claim C6 ===================== -/

theorem runOps_cons (f : JarFiles → JarFiles) (fs : List (JarFiles → JarFiles)) (s : JarFiles) :
    runOps (f :: fs) s = runOps fs (f s) := rfl

theorem runOps_backup (l : List (JarFiles → JarFiles))
    (hl : ∀ f ∈ l, ∀ s, (f s).backup = s.backup) :
    ∀ s, (runOps l s).backup = s.backup := by
  induction l with
  | nil => intro s; rfl
  | cons f fs ih =>
    intro s
    rw [runOps_cons, ih (fun g hg => hl g (List.mem_cons_of_mem f hg)), hl f (List.mem_cons_self f fs)]

theorem cookie_tail_ops_backup (rows : List String) (k : Nat) :
    ∀ s, (runOps (((cookie_write_ops rows).tail).take k) s).backup = s.backup := by
  intro s
  apply runOps_backup
  intro f hf
  have hmem : f ∈ (cookie_write_ops rows).tail := List.take_subset k _ hf
  simp only [cookie_write_ops, List.cons_append, List.nil_append, List.tail_cons,
    List.mem_cons, List.mem_append, List.mem_map, List.not_mem_nil, false_or] at hmem
  rcases hmem with h | h | ⟨r, hr, rfl⟩
  · subst h; intro s; rfl
  · subst h; intro s; rfl
  · intro s; rfl

/-- Claim C6 (corrected): a crash at any point of the persistence code
after its first step leaves the original jar content in the `.backup`
file (not in the cookie file itself), and the error handler restores the
original jar from the backup before the error is surfaced. -/
theorem cookie_crash_backup (orig : String) (b0 : Option String)
    (rows : List String) (k : Nat) (hk : 1 ≤ k) :
    (crash_state rows k { cookie := some orig, backup := b0 }).backup = some orig ∧
    restore_backup (crash_state rows k { cookie := some orig, backup := b0 }) =
      { cookie := some orig, backup := none } := by
  obtain ⟨k', rfl⟩ : ∃ k', k = k' + 1 := ⟨k - 1, by omega⟩
  have hstep : crash_state rows (k' + 1) { cookie := some orig, backup := b0 } =
      runOps (((cookie_write_ops rows).tail).take k') { cookie := none, backup := some orig } := by
    rfl
  have hb : (crash_state rows (k' + 1) { cookie := some orig, backup := b0 }).backup = some orig := by
    rw [hstep, cookie_tail_ops_backup]
  refine ⟨hb, ?_⟩
  simp [restore_backup, hb]

/-- Witness for `cookie_crash_backup`: crash after the truncating open. -/
theorem cookie_crash_backup_witness :
    (crash_state ["r1"] 2 { cookie := some "orig", backup := none }).backup = some "orig" ∧
    restore_backup (crash_state ["r1"] 2 { cookie := some "orig", backup := none }) =
      { cookie := some "orig", backup := none } :=
  ⟨(cookie_crash_backup "orig" none ["r1"] 2 (by decide)).1,
   (cookie_crash_backup "orig" none ["r1"] 2 (by decide)).2⟩

/-- Counterexample to claim C6 as stated: a crash right after the
truncating open (two effects done, header not yet written) leaves the
cookie file empty — not byte-identical to its pre-write state — because
the new jar is written directly to the cookie path, not to a temporary
file that is swapped in. -/
theorem cookie_crash_backup_counterexample :
    (crash_state ["row"] 2 { cookie := some "# old jar", backup := none }).cookie = some "" ∧
    (crash_state ["row"] 2 { cookie := some "# old jar", backup := none }).cookie ≠
      some "# old jar" :=
  ⟨rfl, by decide⟩

/- ===================== Claim C8 ===================== -/

/-- Claim C8 (confirmed): template resolution falls back to the English
section labels for every language code without an entry, uses the
matching labels for a code with an entry, and both generated
instructions still ask for the requested language (they contain
"in " followed by the requested code). -/
theorem create_summary_prompt_fallback :
    (∀ lang : String, lang ≠ "en" → lang ≠ "de" → prompts_for lang = en_labels) ∧
    (prompts_for "de" = de_labels) ∧
    (∀ lang text : String, containsStr ("in " ++ lang) (create_summary_prompt text lang).1) ∧
    (∀ lang text : String, containsStr ("in " ++ lang) (create_summary_prompt text lang).2) := by
  refine ⟨?_, by decide, ?_, ?_⟩
  · intro lang h1 h2
    unfold prompts_for language_prompts
    rw [if_neg h1, if_neg h2]
    rfl
  · intro lang text
    refine ⟨"You are an expert content analyst and summarizer. Create a comprehensive \n    summary ",
      ". Ensure all content is fully translated and culturally adapted \n    to the target language.", ?_⟩
    show system_prompt lang = _
    unfold system_prompt
    rw [show ("You are an expert content analyst and summarizer. Create a comprehensive \n    summary in " : String)
        = "You are an expert content analyst and summarizer. Create a comprehensive \n    summary " ++ "in " by decide,
      String.append_assoc "You are an expert content analyst and summarizer. Create a comprehensive \n    summary " "in " lang]
  · intro lang text
    refine ⟨"Please provide a detailed summary of the following content ",
      ". \n    Structure your response as follows:\n\n    🎯 "
        ++ (prompts_for lang).title
        ++ ": Create a descriptive title\n\n    📝 "
        ++ (prompts_for lang).overview
        ++ " (2-3 sentences):\n    - Provide a brief context and main purpose\n\n    🔑 "
        ++ (prompts_for lang).key_points
        ++ ":\n    - Extract and explain the main arguments\n    - Include specific examples\n    - Highlight unique perspectives\n\n    💡 "
        ++ (prompts_for lang).takeaways
        ++ ":\n    - List 3-5 practical insights\n    - Explain their significance\n\n    🔄 "
        ++ (prompts_for lang).context
        ++ ":\n    - Broader context discussion\n    - Future implications\n\n    Text to summarize: "
        ++ text
        ++ "\n\n    Ensure the summary is comprehensive enough for someone who hasn\u0027t seen the original content.", ?_⟩
    show user_prompt (prompts_for lang) lang text = _
    unfold user_prompt
    rw [show ("Please provide a detailed summary of the following content in " : String)
        = "Please provide a detailed summary of the following content " ++ "in " by decide]
    simp only [String.append_assoc]

/-- Witness for `create_summary_prompt_fallback` at the unconfigured
language code "xx". -/
theorem create_summary_prompt_fallback_witness :
    prompts_for "xx" = en_labels :=
  create_summary_prompt_fallback.1 "xx" (by decide) (by decide)

/- ===================== Helper lemmas: video id extraction ===================== -/

theorem searchPat_hit (p : List Char → Option (List Char)) (c : Char) (rest r : List Char)
    (h : p (c :: rest) = some r) : searchPat p (c :: rest) = some r := by
  simp [searchPat, h]

theorem searchPat_append_none (p : List Char → Option (List Char)) (pre suf : List Char)
    (h : scanPre p pre suf = none) : searchPat p (pre ++ suf) = searchPat p suf := by
  induction pre with
  | nil => rfl
  | cons c rest ih =>
    rw [List.cons_append]
    cases hp : p (c :: (rest ++ suf)) with
    | some r => simp [scanPre, hp] at h
    | none =>
      have h' : scanPre p rest suf = none := by simpa [scanPre, hp] using h
      simp only [searchPat, hp]
      exact ih h'

theorem grab11_exact (id : List Char) (hl : id.length = 11) (ha : id.all idChar = true) :
    grab11 id = some id := by
  unfold grab11
  rw [List.take_of_length_le (by omega), ha, hl]
  rfl

theorem idChar_not_ws (c : Char) (h : idChar c = true) : isWS c = false := by
  cases hw : isWS c with
  | false => rfl
  | true =>
    exfalso
    have hcs : c = ' ' ∨ c = '\t' ∨ c = '\n' ∨ c = '\r' := by
      simpa [isWS, Bool.or_eq_true, beq_iff_eq, or_assoc] using hw
    rcases hcs with rfl | rfl | rfl | rfl <;> exact absurd h (by decide)

theorem searchPat_pat1_allId : ∀ s : List Char, s.all idChar = true → searchPat pat1At s = none := by
  intro s
  induction s with
  | nil => intro _; rfl
  | cons c rest ih =>
    intro h
    have hc : idChar c = true ∧ rest.all idChar = true := by
      simpa [List.all_cons, Bool.and_eq_true] using h
    have hpat : pat1At (c :: rest) = none := by
      unfold pat1At
      rw [if_neg ?h1, if_neg ?h2]
      case h1 =>
        intro h1
        rcases rest with _ | ⟨d, rest'⟩
        · simp [List.take] at h1
        · simp [List.take] at h1
          have hd : idChar d = true ∧ rest'.all idChar = true := by
            simpa [List.all_cons, Bool.and_eq_true] using hc.2
          rw [h1.2] at hd
          exact absurd hd.1 (by decide)
      case h2 =>
        intro h2
        simp [List.take] at h2
        rw [h2] at hc
        exact absurd hc.1 (by decide)
    simp only [searchPat, hpat]
    exact ih hc.2

theorem searchPat_patPre_none (pre : List Char) (bad : Char) (hmem : bad ∈ pre)
    (hbad : idChar bad = false) :
    ∀ s : List Char, s.all idChar = true → searchPat (patPreAt pre) s = none := by
  intro s
  induction s with
  | nil => intro _; rfl
  | cons c rest ih =>
    intro h
    have hc : idChar c = true ∧ rest.all idChar = true := by
      simpa [List.all_cons, Bool.and_eq_true] using h
    have hpat : patPreAt pre (c :: rest) = none := by
      unfold patPreAt
      rw [if_neg]
      intro heq
      have hb : bad ∈ c :: rest := List.take_subset _ _ (heq ▸ hmem)
      have := List.all_eq_true.mp h bad hb
      rw [hbad] at this
      exact Bool.false_ne_true this
    simp only [searchPat, hpat]
    exact ih hc.2

theorem dropWhile_ws_append (ws l : List Char) (h : ws.all isWS = true) :
    (ws ++ l).dropWhile isWS = l.dropWhile isWS := by
  induction ws with
  | nil => rfl
  | cons w ws' ih =>
    have hw : isWS w = true ∧ ws'.all isWS = true := by
      simpa [List.all_cons, Bool.and_eq_true] using h
    rw [List.cons_append, List.dropWhile_cons, if_pos hw.1]
    exact ih hw.2

theorem dropWhile_eq_self_of_all (l : List Char) (h : ∀ c ∈ l, isWS c = false) :
    l.dropWhile isWS = l := by
  cases l with
  | nil => rfl
  | cons c cs =>
    rw [List.dropWhile_cons, if_neg (by simp [h c (List.mem_cons_self c cs)])]

theorem pyStrip_wrap (ws1 ws2 core : List Char) (h1 : ws1.all isWS = true)
    (h2 : ws2.all isWS = true) (hc : ∀ c ∈ core, isWS c = false) (hne : core ≠ []) :
    pyStrip (ws1 ++ core ++ ws2) = core := by
  unfold pyStrip
  rw [List.append_assoc, dropWhile_ws_append ws1 (core ++ ws2) h1]
  have hcw : (core ++ ws2).dropWhile isWS = core ++ ws2 := by
    cases core with
    | nil => exact absurd rfl hne
    | cons c cs =>
      rw [List.cons_append, List.dropWhile_cons,
        if_neg (by simp [hc c (List.mem_cons_self c cs)])]
  have h2' : ws2.reverse.all isWS = true :=
    List.all_eq_true.mpr (fun c hcr => List.all_eq_true.mp h2 c (List.mem_reverse.mp hcr))
  rw [hcw, List.reverse_append, dropWhile_ws_append _ _ h2',
    dropWhile_eq_self_of_all _ (fun c hcr => hc c (List.mem_reverse.mp hcr)),
    List.reverse_reverse]

/- ===================== Claim C4 ===================== -/

/-- Claim C4 (confirmed): after stripping surrounding whitespace, every
accepted URL shape (standard watch?v=, youtu.be/, embed/, shorts/, and a
bare 11-character id) yields the same 11-character id for the same
underlying video; and when none of the five patterns matches the
stripped input, extraction fails (the ValueError path), never guessing
an id. -/
theorem extract_video_id_spec (id ws1 ws2 : List Char)
    (hlen : id.length = 11) (hid : id.all idChar = true)
    (hws1 : ws1.all isWS = true) (hws2 : ws2.all isWS = true) :
    extract_video_id (ws1 ++ ("https://www.youtube.com/watch?v=".toList ++ id) ++ ws2) = some id ∧
    extract_video_id (ws1 ++ ("https://youtu.be/".toList ++ id) ++ ws2) = some id ∧
    extract_video_id (ws1 ++ ("https://www.youtube.com/embed/".toList ++ id) ++ ws2) = some id ∧
    extract_video_id (ws1 ++ ("https://www.youtube.com/shorts/".toList ++ id) ++ ws2) = some id ∧
    extract_video_id (ws1 ++ id ++ ws2) = some id ∧
    (∀ u : List Char,
      searchPat pat1At (pyStrip u) = none →
      searchPat (patPreAt ("embed/".toList)) (pyStrip u) = none →
      searchPat (patPreAt ("youtu.be/".toList)) (pyStrip u) = none →
      searchPat (patPreAt ("shorts/".toList)) (pyStrip u) = none →
      pat5 (pyStrip u) = none →
      extract_video_id u = none) := by
  have hid' : ∀ c ∈ id, isWS c = false :=
    fun c hc => idChar_not_ws c (List.all_eq_true.mp hid c hc)
  refine ⟨?_, ?_, ?_, ?_, ?_, ?_⟩
  · have hcore : ∀ c ∈ ("https://www.youtube.com/watch?v=".toList ++ id), isWS c = false := by
      intro c hc
      rcases List.mem_append.mp hc with h | h
      · exact (by decide : ∀ c ∈ "https://www.youtube.com/watch?v=".toList, isWS c = false) c h
      · exact hid' c h
    have hstrip := pyStrip_wrap ws1 ws2 _ hws1 hws2 hcore (List.cons_ne_nil _ _)
    have hsearch : searchPat pat1At ("https://www.youtube.com/watch?v=".toList ++ id) = some id := by
      rw [show "https://www.youtube.com/watch?v=".toList ++ id
          = "https://www.youtube.com/watch?".toList ++ ('v' :: '=' :: id) from rfl,
        searchPat_append_none pat1At ("https://www.youtube.com/watch?".toList) ('v' :: '=' :: id) rfl]
      exact searchPat_hit pat1At 'v' ('=' :: id) id (grab11_exact id hlen hid)
    unfold extract_video_id
    rw [hstrip, hsearch]
  · have hcore : ∀ c ∈ ("https://youtu.be/".toList ++ id), isWS c = false := by
      intro c hc
      rcases List.mem_append.mp hc with h | h
      · exact (by decide : ∀ c ∈ "https://youtu.be/".toList, isWS c = false) c h
      · exact hid' c h
    have hstrip := pyStrip_wrap ws1 ws2 _ hws1 hws2 hcore (List.cons_ne_nil _ _)
    have hsearch : searchPat pat1At ("https://youtu.be/".toList ++ id) = some id := by
      rw [show "https://youtu.be/".toList ++ id
          = "https://youtu.be".toList ++ ('/' :: id) from rfl,
        searchPat_append_none pat1At ("https://youtu.be".toList) ('/' :: id) rfl]
      exact searchPat_hit pat1At '/' id id (grab11_exact id hlen hid)
    unfold extract_video_id
    rw [hstrip, hsearch]
  · have hcore : ∀ c ∈ ("https://www.youtube.com/embed/".toList ++ id), isWS c = false := by
      intro c hc
      rcases List.mem_append.mp hc with h | h
      · exact (by decide : ∀ c ∈ "https://www.youtube.com/embed/".toList, isWS c = false) c h
      · exact hid' c h
    have hstrip := pyStrip_wrap ws1 ws2 _ hws1 hws2 hcore (List.cons_ne_nil _ _)
    have hsearch : searchPat pat1At ("https://www.youtube.com/embed/".toList ++ id) = some id := by
      rw [show "https://www.youtube.com/embed/".toList ++ id
          = "https://www.youtube.com/embed".toList ++ ('/' :: id) from rfl,
        searchPat_append_none pat1At ("https://www.youtube.com/embed".toList) ('/' :: id) rfl]
      exact searchPat_hit pat1At '/' id id (grab11_exact id hlen hid)
    unfold extract_video_id
    rw [hstrip, hsearch]
  · have hcore : ∀ c ∈ ("https://www.youtube.com/shorts/".toList ++ id), isWS c = false := by
      intro c hc
      rcases List.mem_append.mp hc with h | h
      · exact (by decide : ∀ c ∈ "https://www.youtube.com/shorts/".toList, isWS c = false) c h
      · exact hid' c h
    have hstrip := pyStrip_wrap ws1 ws2 _ hws1 hws2 hcore (List.cons_ne_nil _ _)
    have hsearch : searchPat pat1At ("https://www.youtube.com/shorts/".toList ++ id) = some id := by
      rw [show "https://www.youtube.com/shorts/".toList ++ id
          = "https://www.youtube.com/shorts".toList ++ ('/' :: id) from rfl,
        searchPat_append_none pat1At ("https://www.youtube.com/shorts".toList) ('/' :: id) rfl]
      exact searchPat_hit pat1At '/' id id (grab11_exact id hlen hid)
    unfold extract_video_id
    rw [hstrip, hsearch]
  · have hne : id ≠ [] := by
      intro h
      rw [h] at hlen
      simp at hlen
    have hstrip := pyStrip_wrap ws1 ws2 id hws1 hws2 hid' hne
    have h1 := searchPat_pat1_allId id hid
    have h2 := searchPat_patPre_none ("embed/".toList) '/' (by decide) (by decide) id hid
    have h3 := searchPat_patPre_none ("youtu.be/".toList) '/' (by decide) (by decide) id hid
    have h4 := searchPat_patPre_none ("shorts/".toList) '/' (by decide) (by decide) id hid
    have h5 : pat5 id = some id := by
      unfold pat5
      rw [hid, hlen]
      rfl
    unfold extract_video_id
    rw [hstrip, h1, h2, h3, h4]
    exact h5
  · intro u h1 h2 h3 h4 h5
    unfold extract_video_id
    rw [h1, h2, h3, h4]
    exact h5

/-- Witness for `extract_video_id_spec`: a concrete video id with one
space of surrounding whitespace on each side. -/
theorem extract_video_id_spec_witness :
    extract_video_id
      ([' '] ++ ("https://www.youtube.com/watch?v=".toList ++ "dQw4w9WgXcQ".toList) ++ [' ']) =
      some ("dQw4w9WgXcQ".toList) :=
  (extract_video_id_spec ("dQw4w9WgXcQ".toList) [' '] [' ']
    (by decide) (by decide) (by decide) (by decide)).1
